import Mathlib

/-!
Shallow embedding of the bluesky-cli repository (src/bluesky_cli/api.py,
src/bluesky_cli/utils.py, src/server.py) for checking the natural-language
specification against the code.

Python `str` values are modelled as Lean `String`; Python `None`-able values
as `Option`; a raised exception as the `.error` branch of `Except`.  Python
truthiness of an optional string (`if not s:`) is `truthyOpt` below.
-/

deriving instance DecidableEq for Except

namespace BlueskyCli

/-- Python truthiness of an optional string: `None` and `""` are falsy. -/
def truthyOpt : Option String → Bool
  | none => false
  | some s => decide (s ≠ "")

/-! ## Handle normalization (api.py, `BlueSkyAPI.format_handle`, lines 70-76) -/

/-- Embeds `if handle.startswith("@"): handle = handle[1:]` from
`format_handle` (api.py lines 72-73); Python strings are sequences of code
points, so `startswith`/slicing act on `String.data`. -/
def stripLeadingAt (handle : String) : String :=
  if ("@".data).isPrefixOf handle.data then ⟨handle.data.drop 1⟩ else handle

/-- Embeds `BlueSkyAPI.format_handle` (api.py lines 70-76): strip a leading
`@`, then append `.bsky.social` when the string contains no `.`
(Python `"." not in handle` is membership of the single character). -/
def format_handle (handle : String) : String :=
  let handle := stripLeadingAt handle
  if '.' ∈ handle.data then handle else handle ++ ".bsky.social"

/-! ## Feed data model (shapes read by api.py and server.py)

A feed item is the JSON value `{"post": {"record": {"text": ..,
"createdAt": ..}, "likeCount": .., "repostCount": ..}}`; every field access
in the source goes through `dict.get` with a default, so every field is an
`Option`. -/

structure PostRecord where
  text : Option String
  createdAt : Option String
  deriving DecidableEq, Repr

structure PostView where
  record : Option PostRecord
  likeCount : Option Int
  repostCount : Option Int
  deriving DecidableEq, Repr

structure FeedItem where
  post : Option PostView
  deriving DecidableEq, Repr

structure PostsData where
  feed : Option (List FeedItem)
  deriving DecidableEq, Repr

/-- Embeds the chain `item.get("post", {}).get("record", {}).get("text", "")`
from `get_post_content` (api.py lines 109-111). -/
def itemText (item : FeedItem) : String :=
  (((item.post.getD ⟨none, none, none⟩).record.getD ⟨none, none⟩).text.getD "")

/-- Embeds Python `str.strip()` (used at api.py lines 114-116): drop
whitespace from both ends. -/
def pyStrip (s : String) : String :=
  ⟨((s.data.dropWhile Char.isWhitespace).reverse.dropWhile Char.isWhitespace).reverse⟩

/-- Embeds the accumulation loop of `get_post_content` (api.py lines
107-113): `combined_text += text + "\n"` for each truthy text. -/
def combinedText (posts : List FeedItem) : String :=
  posts.foldl
    (fun acc item =>
      let text := itemText item
      if text = "" then acc else acc ++ text ++ "\n") ""

/-- Embeds `BlueSkyAPI.get_post_content` (api.py lines 104-116); the raised
`ValueError("No post texts found.")` is the `.error` branch. -/
def get_post_content (posts_data : PostsData) : Except String String :=
  let combined := combinedText (posts_data.feed.getD [])
  if pyStrip combined = "" then .error "No post texts found."
  else .ok (pyStrip combined)

/-! ## Pagination (api.py, `get_all_followers` lines 208-234 and
`get_all_follows` lines 236-262)

The upstream paged endpoint is modelled as the sequence of responses it
would give to the successive requests of the loop: a `FetchOutcome` is one
response, either a page (`items` = `data.get("followers", [])` resp.
`data.get("follows", [])`, `cursor` = `data.get("cursor")`) or `err`, an
exception raised by the request (caught by the `except` clause, which
prints and breaks). -/

inductive FetchOutcome (α : Type) where
  | ok (items : List α) (cursor : Option String)
  | err
  deriving DecidableEq, Repr

/-- Embeds the `while` loop shared by `get_all_followers` (api.py lines
216-230) and `get_all_follows` (lines 244-258): while `max_results == 0 or
len(acc) < max_results`, issue the next request; on exception, break; else
extend `acc` with the page's items and break when the returned cursor is
falsy (`if not cursor: break`). -/
def paginate {α : Type} (max_results : Nat) : List (FetchOutcome α) → List α → List α
  | [], acc => acc
  | page :: rest, acc =>
    if max_results = 0 ∨ acc.length < max_results then
      match page with
      | .err => acc
      | .ok items cursor =>
        if truthyOpt cursor then paginate max_results rest (acc ++ items)
        else acc ++ items
    else acc

/-- Embeds `BlueSkyAPI.get_all_followers` (api.py lines 208-234): run the
pagination loop, then `if max_results > 0: all = all[:max_results]`. -/
def get_all_followers {α : Type} (max_results : Nat) (pages : List (FetchOutcome α)) : List α :=
  let all_followers := paginate max_results pages []
  if max_results > 0 then all_followers.take max_results else all_followers

/-- Embeds `BlueSkyAPI.get_all_follows` (api.py lines 236-262); its body is
line-for-line the same loop as `get_all_followers`, over the `follows` key. -/
def get_all_follows {α : Type} (max_results : Nat) (pages : List (FetchOutcome α)) : List α :=
  let all_follows := paginate max_results pages []
  if max_results > 0 then all_follows.take max_results else all_follows

/-- The items of all pages of a response sequence, in order (what the spec
calls `totalAvailable` when counted). -/
def allItems {α : Type} : List (FetchOutcome α) → List α
  | [] => []
  | .ok items _ :: rest => items ++ allItems rest
  | .err :: rest => allItems rest

/-- A well-formed exhaustive response sequence: every page succeeds, every
page before the last carries a truthy cursor, and the last page's cursor is
falsy (end of stream). -/
inductive GoodPages {α : Type} : List (FetchOutcome α) → Prop
  | last (items : List α) (cursor : Option String) (h : truthyOpt cursor = false) :
      GoodPages [.ok items cursor]
  | cons (items : List α) (cursor : Option String) (h : truthyOpt cursor = true)
      {rest : List (FetchOutcome α)} (hr : GoodPages rest) :
      GoodPages (.ok items cursor :: rest)

/-- A successful mid-stream page: `ok` with a truthy cursor. -/
def OkTruthy {α : Type} : FetchOutcome α → Prop
  | .ok _ cursor => truthyOpt cursor = true
  | .err => False

/-- Embeds the request parameters built by each iteration of
`get_all_followers` (api.py lines 217-219): `params = {"actor": handle,
"limit": batch_size}` and `if cursor: params["cursor"] = cursor`. -/
structure PageRequestParams where
  actor : String
  limit : Nat
  cursor : Option String
  deriving DecidableEq, Repr

/-- The parameters of one page request of `get_all_followers` (api.py lines
217-221); `batch_size` is placed in `limit` as-is. -/
def followersPageParams (actor : String) (batch_size : Nat)
    (cursor : Option String) : PageRequestParams :=
  { actor := actor, limit := batch_size,
    cursor := if truthyOpt cursor then cursor else none }

/-! ## Authentication (api.py, `BlueSkyAPI.authenticate_bsky`, lines 41-68) -/

/-- The JSON body of a successful `createSession` response, as read by
`authenticate_bsky`: `auth_data.get("accessJwt")` and
`auth_data.get("did")`. -/
structure AuthResponse where
  accessJwt : Option String
  did : Option String
  deriving DecidableEq, Repr

/-- The headers dict built at api.py lines 62-65. -/
structure BskyHeaders where
  Authorization : String
  ContentType : String
  deriving DecidableEq, Repr

/-- The session fields of `BlueSkyAPI` set by `authenticate_bsky`
(api.py lines 26-28, 57-65). -/
structure Session where
  bsky_auth_token : Option String
  bsky_headers : Option BskyHeaders
  bsky_did : Option String
  deriving DecidableEq, Repr

/-- Python `a or b` on optional strings (api.py lines 45-46). -/
def pyOr (a b : Option String) : Option String :=
  if truthyOpt a then a else b

/-- Embeds the credential fallback of api.py lines 43-46: when either
argument is falsy, fetch the configured credentials and default each
argument with `or`. -/
def resolveCreds (identifier password conf_id conf_pass : Option String) :
    Option String × Option String :=
  if ¬ truthyOpt identifier ∨ ¬ truthyOpt password then
    (pyOr identifier conf_id, pyOr password conf_pass)
  else (identifier, password)

/-- Embeds `BlueSkyAPI.authenticate_bsky` (api.py lines 41-68).  Inputs are
the call arguments, the credentials `get_bsky_credentials()` would return,
and the outcome of the HTTP exchange (`.error` = `requests.post` raised or
`raise_for_status` fired, carrying the exception text).  The result is
`.error msg` when the Python code raises, and `.ok (returnValue, session)`
with the field state on normal return. -/
def authenticate_bsky (identifier password conf_id conf_pass : Option String)
    (httpResp : Except String AuthResponse) : Except String (Bool × Session) :=
  let creds := resolveCreds identifier password conf_id conf_pass
  if ¬ truthyOpt creds.1 ∨ ¬ truthyOpt creds.2 then
    .error "BlueSky credentials not found."
  else
    match httpResp with
    | .error e => .error ("BlueSky authentication failed: " ++ e)
    | .ok auth_data =>
      match auth_data.accessJwt with
      | none => .error "BlueSky authentication failed: No access token returned"
      | some token =>
        if token = "" then
          .error "BlueSky authentication failed: No access token returned"
        else
          .ok (true,
            { bsky_auth_token := some token,
              bsky_headers := some
                { Authorization := "Bearer " ++ token,
                  ContentType := "application/json" },
              bsky_did := auth_data.did })

/-! ## Tool dispatcher (server.py, `handle_call_tool`, lines 84-155)

The dispatcher's collaborators are modelled by a `ServerEnv` carrying the
session/credential state read by the guards (`api.bsky_did`, `BSKY_HANDLE`,
`BSKY_PASSWORD`) and the outcome each network call would produce if issued.
The result pairs the returned envelope with the list of network requests
issued while handling the invocation, in order. -/

/-- One content-bearing envelope `{"content": [{"type": "text", "text": t}],
"isError": b}`; every return of `handle_call_tool` has exactly one text
block, and `isError` is absent (false) on success paths. -/
structure Envelope where
  text : String
  isError : Bool
  deriving DecidableEq, Repr

/-- The network requests `handle_call_tool` can cause, via the `api`
methods it calls. -/
inductive NetCall where
  | auth
  | getProfile
  | getFeed
  | searchPosts
  | searchActors
  | vibeAI
  deriving DecidableEq, Repr

/-- The `params.arguments` object of a `tools/call` request; each field is
present or absent (`arguments["k"]` raises `KeyError` when absent,
`arguments.get` supplies the default). -/
structure ToolArgs where
  handle : Option String
  limit : Option Nat
  query : Option String
  type : Option String
  deriving DecidableEq, Repr

/-- The state and collaborator outcomes visible to `handle_call_tool`:
session state (`api.bsky_did`), the `BSKY_HANDLE`/`BSKY_PASSWORD`
environment variables, and what each upstream call would return.  Upstream
JSON payloads that no claim inspects (profile, search results, AI analysis)
are carried as opaque pre-rendered strings. -/
structure ServerEnv where
  bsky_did : Option String
  envHandle : Option String
  envPassword : Option String
  authOutcome : Except String Unit
  profileOutcome : Except String String
  feedOutcome : Except String PostsData
  searchPostsOutcome : Except String String
  searchActorsOutcome : Except String String
  vibeOutcome : Except String String
  deriving Repr

/-- The flat feed record built by the `dream_bsky_get_feed` branch
(server.py lines 104-113). -/
structure CleanFeedItem where
  text : Option String
  created_at : Option String
  likes : Option Int
  reposts : Option Int
  deriving DecidableEq, Repr

/-- Embeds the feed-normalization loop of server.py lines 104-113:
`record.get('text')`, `record.get('createdAt')`, `post.get('likeCount')`,
`post.get('repostCount')` with no defaults. -/
def cleanFeed (pd : PostsData) : List CleanFeedItem :=
  (pd.feed.getD []).map fun item =>
    let post := item.post.getD ⟨none, none, none⟩
    let record := post.record.getD ⟨none, none⟩
    { text := record.text, created_at := record.createdAt,
      likes := post.likeCount, reposts := post.repostCount }

/-- Rendering of an optional scalar as it would appear in the
`json.dumps` output (JSON-string escaping elided; no claim inspects it). -/
def dumpOptStr : Option String → String
  | none => "null"
  | some s => "\x22" ++ s ++ "\x22"

/-- Rendering of an optional count as in the `json.dumps` output. -/
def dumpOptInt : Option Int → String
  | none => "null"
  | some n => toString n

/-- Rendering of one normalized feed item (abstraction of the
`json.dumps(clean_feed)` at server.py line 114; no claim inspects it). -/
def dumpCleanFeedItem (it : CleanFeedItem) : String :=
  "\x7b\x22text\x22: " ++ dumpOptStr it.text ++
  ", \x22created_at\x22: " ++ dumpOptStr it.created_at ++
  ", \x22likes\x22: " ++ dumpOptInt it.likes ++
  ", \x22reposts\x22: " ++ dumpOptInt it.reposts ++ "\x7d"

/-- Rendering of the normalized feed list. -/
def dumpCleanFeed (items : List CleanFeedItem) : String :=
  "[" ++ String.intercalate ", " (items.map dumpCleanFeedItem) ++ "]"

/-- Python `str(KeyError("k"))` as it reaches the catch-all message. -/
def keyErrorText (k : String) : String := "'" ++ k ++ "'"

/-- The catch-all envelope of server.py lines 154-155. -/
def catchAllEnvelope (name msg : String) : Envelope :=
  { text := "Error executing " ++ name ++ ": " ++ msg, isError := true }

/-- Embeds the tool-name dispatch of `handle_call_tool` (server.py lines
95-155): the `if/elif` chain on `name`, each branch issuing its network
call and normalizing its result, exceptions raised below landing in the
catch-all of lines 154-155; the final `return` (line 152) is the
unknown-tool envelope.  `calls` is the list of network requests already
issued by the authentication preamble. -/
def dispatchTool (env : ServerEnv) (name : String) (args : ToolArgs)
    (calls : List NetCall) : Envelope × List NetCall :=
  if name = "dream_bsky_get_profile" then
    match args.handle with
    | none => (catchAllEnvelope name (keyErrorText "handle"), calls)
    | some _ =>
      match env.profileOutcome with
      | .error e =>
        (catchAllEnvelope name ("Error fetching profile: " ++ e), calls ++ [.getProfile])
      | .ok js => ({ text := js, isError := false }, calls ++ [.getProfile])
  else if name = "dream_bsky_get_feed" then
    match args.handle with
    | none => (catchAllEnvelope name (keyErrorText "handle"), calls)
    | some _ =>
      match env.feedOutcome with
      | .error e =>
        (catchAllEnvelope name ("Error fetching posts: " ++ e), calls ++ [.getFeed])
      | .ok pd =>
        ({ text := dumpCleanFeed (cleanFeed pd), isError := false }, calls ++ [.getFeed])
  else if name = "dream_bsky_search" then
    match args.query with
    | none => (catchAllEnvelope name (keyErrorText "query"), calls)
    | some _ =>
      if args.type.getD "posts" = "posts" then
        match env.searchPostsOutcome with
        | .error e =>
          (catchAllEnvelope name ("Error searching posts: " ++ e), calls ++ [.searchPosts])
        | .ok js => ({ text := js, isError := false }, calls ++ [.searchPosts])
      else
        match env.searchActorsOutcome with
        | .error e =>
          (catchAllEnvelope name ("Error searching users: " ++ e), calls ++ [.searchActors])
        | .ok js => ({ text := js, isError := false }, calls ++ [.searchActors])
  else if name = "dream_bsky_vibe_check" then
    match args.handle with
    | none => (catchAllEnvelope name (keyErrorText "handle"), calls)
    | some handle =>
      match env.feedOutcome with
      | .error e =>
        (catchAllEnvelope name ("Error fetching posts: " ++ e), calls ++ [.getFeed])
      | .ok feed =>
        match get_post_content feed with
        | .error e => (catchAllEnvelope name e, calls ++ [.getFeed])
        | .ok text =>
          if text = "" then
            ({ text := "No text found for " ++ handle ++ " to analyze.",
               isError := false }, calls ++ [.getFeed])
          else
            match env.vibeOutcome with
            | .error e =>
              ({ text := "AI Analysis failed: " ++ e ++ ". Check API keys.",
                 isError := true }, calls ++ [.getFeed, .vibeAI])
            | .ok analysis =>
              ({ text := analysis, isError := false }, calls ++ [.getFeed, .vibeAI])
  else
    ({ text := "Tool not found: " ++ name, isError := true }, calls)

/-- Embeds `handle_call_tool` (server.py lines 84-155): the credential
guard of lines 85-86, the lazy-authentication block of lines 89-93, then
the dispatch. -/
def handle_call_tool (env : ServerEnv) (name : String) (args : ToolArgs) :
    Envelope × List NetCall :=
  if ¬ truthyOpt env.bsky_did ∧
      ¬ (truthyOpt env.envHandle = true ∧ truthyOpt env.envPassword = true) then
    ({ text := "Error: BSKY_HANDLE and BSKY_PASSWORD environment variables not set.",
       isError := true }, [])
  else if ¬ truthyOpt env.bsky_did then
    match env.authOutcome with
    | .error e =>
      ({ text := "Authentication failed: " ++ e, isError := true }, [.auth])
    | .ok _ => dispatchTool env name args [.auth]
  else dispatchTool env name args []

/-- The four tool names of `list_tools` (server.py lines 33-82). -/
def knownToolNames : List String :=
  ["dream_bsky_get_profile", "dream_bsky_get_feed",
   "dream_bsky_search", "dream_bsky_vibe_check"]

/-! ## Spec-side descriptions of `extractPostText` (spec §4.3, §8)

These follow the spec's words, for comparison with `get_post_content`
above: the non-empty `post.record.text` values, joined "separated by
newline", with whitespace trimmed. -/

/-- The non-empty `post.record.text` values of a feed, in order. -/
def nonEmptyTexts (posts_data : PostsData) : List String :=
  ((posts_data.feed.getD []).map itemText).filter (fun t => decide (t ≠ ""))

/-- Concatenation "separated by newline" (the spec's words): a single
newline between consecutive values, none at either end. -/
def sepByNl : List String → String
  | [] => ""
  | [t] => t
  | t :: ts => t ++ "\n" ++ sepByNl ts

/-- Trailing-only whitespace trim (the spec's words say "trims trailing
whitespace"). -/
def stripTrailing (s : String) : String :=
  ⟨(s.data.reverse.dropWhile Char.isWhitespace).reverse⟩

/-- Follows the spec's words for `extractPostText`: concatenate the
non-empty texts separated by newline, then trim trailing whitespace. -/
def extractPostTextSpec (posts_data : PostsData) : String :=
  stripTrailing (sepByNl (nonEmptyTexts posts_data))

/-- The amended description: same concatenation, but trimmed of leading
and trailing whitespace (Python `str.strip()`), as the code does. -/
def extractPostTextStripped (posts_data : PostsData) : String :=
  pyStrip (sepByNl (nonEmptyTexts posts_data))

/-- A feed item whose `post.record.text` is the given string (concrete
test inputs). -/
def mkItem (t : String) : FeedItem :=
  ⟨some ⟨some ⟨some t, none⟩, none, none⟩⟩

/-- A feed whose items carry the given texts. -/
def mkFeed (ts : List String) : PostsData :=
  ⟨some (ts.map mkItem)⟩

/-! ## Claim C7 -/

/-- C7: `format_handle("@a")` and `format_handle("a")` both equal
`"a.bsky.social"`, `format_handle("a.b")` equals `"a.b"`; in general a
string that is not `@`-prefixed and already contains a `.` is preserved
verbatim. -/
theorem formatHandle_normalization :
    format_handle "@a" = "a.bsky.social" ∧
    format_handle "a" = "a.bsky.social" ∧
    format_handle "a.b" = "a.b" ∧
    (∀ s : String, ("@".data).isPrefixOf s.data = false → '.' ∈ s.data →
      format_handle s = s) := by
  refine ⟨by decide, by decide, by decide, ?_⟩
  intro s h1 h2
  simp [format_handle, stripLeadingAt, h1, h2]

/-- Witness for C7: the universally quantified conjunct at the concrete
handle `"x.y"`. -/
theorem formatHandle_normalization_witness : format_handle "x.y" = "x.y" :=
  formatHandle_normalization.2.2.2 "x.y" (by decide) (by decide)

/-! ## Claim C9 -/

/-- C9: for every input string, `format_handle` returns a string containing
at least one `.`: it returns the `@`-stripped input unchanged or appends
the `.bsky.social` suffix, and (being a total function) never raises. -/
theorem formatHandle_always_dotted (s : String) :
    '.' ∈ (format_handle s).data ∧
    (format_handle s = stripLeadingAt s ∨
      format_handle s = stripLeadingAt s ++ ".bsky.social") := by
  by_cases h : '.' ∈ (stripLeadingAt s).data
  · constructor
    · simp [format_handle, h]
    · left; simp [format_handle, h]
  · constructor
    · simp only [format_handle, if_neg h, String.data_append]
      exact List.mem_append_right _ (by decide)
    · right; simp [format_handle, h]

/-! ## Claim C4 (corrected: the code does not clamp) -/

/-- Counterexample to C4 as stated: a requested page size of 150 is placed
in the upstream request's `limit` parameter as 150, not clamped to 100. -/
theorem followersPageParams_not_clamped :
    (followersPageParams "alice.bsky.social" 150 none).limit = 150 ∧
    (followersPageParams "alice.bsky.social" 150 none).limit ≠ 100 :=
  ⟨rfl, by decide⟩

/-- C4 amended: the requested page size is sent upstream unmodified;
`get_all_followers` builds each page request with `limit = batch_size`
as-is, with no clamping and no rejection. -/
theorem followersPageParams_pass_through :
    ∀ (actor : String) (batch_size : Nat) (cursor : Option String),
      (followersPageParams actor batch_size cursor).limit = batch_size :=
  fun _ _ _ => rfl

/-! ## Pagination lemmas -/

theorem paginate_nil {α : Type} (m : Nat) (acc : List α) :
    paginate m [] acc = acc := rfl

theorem paginate_cons_ok {α : Type} (m : Nat) (items : List α)
    (cursor : Option String) (rest : List (FetchOutcome α)) (acc : List α) :
    paginate m (.ok items cursor :: rest) acc =
      if m = 0 ∨ acc.length < m then
        (if truthyOpt cursor then paginate m rest (acc ++ items) else acc ++ items)
      else acc := rfl

theorem paginate_cons_err {α : Type} (m : Nat) (rest : List (FetchOutcome α))
    (acc : List α) : paginate m (.err :: rest) acc = acc := by
  show (if m = 0 ∨ acc.length < m then acc else acc) = acc
  exact ite_self acc

theorem allItems_append {α : Type} (a b : List (FetchOutcome α)) :
    allItems (a ++ b) = allItems a ++ allItems b := by
  induction a with
  | nil => rfl
  | cons p a ih => cases p <;> simp [allItems, ih]

/-- An error response terminates the loop exactly where the end of the
stream would: pages after the error are never consulted. -/
theorem paginate_stops_at_err {α : Type} (pre rest : List (FetchOutcome α))
    (m : Nat) (acc : List α) :
    paginate m (pre ++ .err :: rest) acc = paginate m pre acc := by
  induction pre generalizing acc with
  | nil => rw [List.nil_append, paginate_cons_err, paginate_nil]
  | cons p pre ih =>
    cases p with
    | err => rw [List.cons_append, paginate_cons_err, paginate_cons_err]
    | ok items cursor =>
      rw [List.cons_append, paginate_cons_ok, paginate_cons_ok]
      split
      · split
        · exact ih (acc ++ items)
        · rfl
      · rfl

/-- A page whose cursor is falsy terminates the loop: pages after it are
never consulted. -/
theorem paginate_stops_at_falsy {α : Type} (items : List α)
    (cursor : Option String) (hc : truthyOpt cursor = false)
    (pre rest : List (FetchOutcome α)) (m : Nat) (acc : List α) :
    paginate m (pre ++ .ok items cursor :: rest) acc =
      paginate m (pre ++ [.ok items cursor]) acc := by
  induction pre generalizing acc with
  | nil =>
    rw [List.nil_append, List.nil_append, paginate_cons_ok, paginate_cons_ok, hc]
    simp
  | cons p pre ih =>
    cases p with
    | err => rw [List.cons_append, List.cons_append, paginate_cons_err, paginate_cons_err]
    | ok i c =>
      rw [List.cons_append, List.cons_append, paginate_cons_ok, paginate_cons_ok]
      split
      · split
        · exact ih (acc ++ i)
        · rfl
      · rfl

/-- With an unbounded cap, a run of successful truthy-cursor pages is
accumulated in full. -/
theorem paginate_zero_allOk {α : Type} (pre : List (FetchOutcome α))
    (h : ∀ p ∈ pre, OkTruthy p) (acc : List α) :
    paginate 0 pre acc = acc ++ allItems pre := by
  induction pre generalizing acc with
  | nil => simp [paginate_nil, allItems]
  | cons p pre ih =>
    cases p with
    | err => exact absurd (h .err (List.mem_cons_self _ _)) id
    | ok items cursor =>
      have hcur : truthyOpt cursor = true := h (.ok items cursor) (List.mem_cons_self _ _)
      rw [paginate_cons_ok, if_pos (Or.inl rfl), if_pos hcur,
        ih (fun p hp => h p (List.mem_cons_of_mem _ hp))]
      simp [allItems]

/-- With an unbounded cap, a well-formed exhaustive response sequence is
accumulated in full. -/
theorem paginate_zero_good {α : Type} {pages : List (FetchOutcome α)}
    (h : GoodPages pages) (acc : List α) :
    paginate 0 pages acc = acc ++ allItems pages := by
  induction h generalizing acc with
  | last items cursor hc =>
    rw [paginate_cons_ok, if_pos (Or.inl rfl), hc]
    simp [allItems]
  | cons items cursor hc hr ih =>
    rw [paginate_cons_ok, if_pos (Or.inl rfl), if_pos hc, ih]
    simp [allItems]

/-- The loop only ever appends whole pages: its result is the
concatenation of the items of some leading run of pages. -/
theorem paginate_whole_pages {α : Type} (pages : List (FetchOutcome α))
    (m : Nat) (acc : List α) :
    ∃ k, paginate m pages acc = acc ++ allItems (pages.take k) := by
  induction pages generalizing acc with
  | nil => exact ⟨0, by simp [paginate_nil, allItems]⟩
  | cons p rest ih =>
    cases p with
    | err => exact ⟨0, by simp [paginate_cons_err, allItems]⟩
    | ok items cursor =>
      rw [paginate_cons_ok]
      by_cases hcond : m = 0 ∨ acc.length < m
      · rw [if_pos hcond]
        by_cases hcur : truthyOpt cursor = true
        · rw [if_pos hcur]
          obtain ⟨k, hk⟩ := ih (acc ++ items)
          exact ⟨k + 1, by rw [hk]; simp [allItems]⟩
        · rw [if_neg hcur]
          exact ⟨1, by simp [allItems]⟩
      · rw [if_neg hcond]
        exact ⟨0, by simp [allItems]⟩

/-- With a positive cap, the loop either stops at or past the cap (without
exceeding what the stream holds) or consumes the whole stream. -/
theorem paginate_pos_bound {α : Type} (m : Nat) (hm : 0 < m)
    {pages : List (FetchOutcome α)} (h : GoodPages pages) (acc : List α) :
    (m ≤ (paginate m pages acc).length ∧
      (paginate m pages acc).length ≤ acc.length + (allItems pages).length)
    ∨ paginate m pages acc = acc ++ allItems pages := by
  induction h generalizing acc with
  | last items cursor hc =>
    rw [paginate_cons_ok]
    by_cases hlt : acc.length < m
    · rw [if_pos (Or.inr hlt), hc]
      right
      simp [allItems]
    · rw [if_neg (by omega)]
      exact Or.inl ⟨Nat.le_of_not_lt hlt, Nat.le_add_right _ _⟩
  | cons items cursor hc hr ih =>
    rw [paginate_cons_ok]
    by_cases hlt : acc.length < m
    · rw [if_pos (Or.inr hlt), if_pos hc]
      rcases ih (acc ++ items) with ⟨h1, h2⟩ | heq
      · left
        refine ⟨h1, ?_⟩
        simp only [List.length_append] at h2 ⊢
        simp only [allItems, List.length_append]
        omega
      · right
        rw [heq]
        simp [allItems]
    · rw [if_neg (by omega)]
      exact Or.inl ⟨Nat.le_of_not_lt hlt, Nat.le_add_right _ _⟩

/-- An all-successful truthy run followed by a falsy-cursor page is a
well-formed exhaustive sequence. -/
theorem goodPages_of_allOk {α : Type} (pre : List (FetchOutcome α))
    (h : ∀ p ∈ pre, OkTruthy p) (items : List α) (cursor : Option String)
    (hc : truthyOpt cursor = false) :
    GoodPages (pre ++ [.ok items cursor]) := by
  induction pre with
  | nil => exact .last items cursor hc
  | cons p pre ih =>
    cases p with
    | err => exact absurd (h .err (List.mem_cons_self _ _)) id
    | ok i c =>
      exact .cons i c (h (.ok i c) (List.mem_cons_self _ _))
        (ih fun p hp => h p (List.mem_cons_of_mem _ hp))

/-! ## Claim C1 -/

/-- C1: over a well-formed exhaustive upstream sequence, `get_all_followers`
returns exactly `min cap totalAvailable` items for every `cap > 0`, and all
`totalAvailable` items when `cap = 0`; the truncation is applied by `take`
after the accumulation loop, which only ever appends whole pages; and
`get_all_follows` computes the same function. -/
theorem getAll_returns_min_cap {α : Type} (pages : List (FetchOutcome α))
    (hwf : GoodPages pages) :
    (∀ cap, 0 < cap →
      (get_all_followers cap pages).length = min cap (allItems pages).length) ∧
    get_all_followers 0 pages = allItems pages ∧
    (∀ cap, 0 < cap →
      get_all_followers cap pages = (paginate cap pages []).take cap) ∧
    (∀ cap, ∃ k, paginate cap pages [] = allItems (pages.take k)) ∧
    (∀ cap, get_all_follows cap pages = get_all_followers cap pages) := by
  refine ⟨?_, ?_, ?_, ?_, fun cap => rfl⟩
  · intro cap hc
    show (if cap > 0 then (paginate cap pages []).take cap
      else paginate cap pages []).length = _
    rw [if_pos hc, List.length_take]
    rcases paginate_pos_bound cap hc hwf [] with ⟨h1, h2⟩ | heq
    · simp only [List.length_nil, Nat.zero_add] at h2
      omega
    · rw [heq, List.nil_append]
  · show (if (0 : Nat) > 0 then (paginate 0 pages []).take 0
      else paginate 0 pages []) = _
    rw [if_neg (Nat.lt_irrefl 0), paginate_zero_good hwf [], List.nil_append]
  · intro cap hc
    show (if cap > 0 then (paginate cap pages []).take cap
      else paginate cap pages []) = _
    rw [if_pos hc]
  · intro cap
    obtain ⟨k, hk⟩ := paginate_whole_pages pages cap []
    exact ⟨k, by rw [hk, List.nil_append]⟩

/-- Witness for C1: two pages holding three items in total, cap 2, yields
exactly `min 2 3 = 2` items; cap 0 yields all three. -/
theorem getAll_returns_min_cap_witness :
    (get_all_followers 2 [FetchOutcome.ok [1, 2] (some "c1"),
        FetchOutcome.ok [3] none]).length =
      min 2 (allItems [FetchOutcome.ok [1, 2] (some "c1"),
        FetchOutcome.ok [3] none]).length ∧
    get_all_followers 0 [FetchOutcome.ok [1, 2] (some "c1"),
        FetchOutcome.ok [3] none] =
      allItems [FetchOutcome.ok [1, 2] (some "c1"), FetchOutcome.ok [3] none] := by
  have h := getAll_returns_min_cap
    [FetchOutcome.ok [1, 2] (some "c1"), FetchOutcome.ok [3] none]
    (.cons [1, 2] (some "c1") (by decide) (.last [3] none (by decide)))
  exact ⟨h.1 2 (by decide), h.2.1⟩

/-! ## Claim C2 -/

/-- C2: a page whose response carries no (truthy) cursor ends pagination:
the result is the same whatever pages lie beyond it, and its items are the
last ones included (over a successful truthy run, with `cap = 0`, the
result is exactly the prior items plus that page's items); conversely a
page with an empty item list but a truthy cursor continues the loop. -/
theorem paginate_cursor_end_of_stream {α : Type} :
    (∀ (items : List α) (cursor : Option String), truthyOpt cursor = false →
      ∀ (pre rest : List (FetchOutcome α)) (cap : Nat) (acc : List α),
        paginate cap (pre ++ .ok items cursor :: rest) acc =
          paginate cap (pre ++ [.ok items cursor]) acc) ∧
    (∀ (items : List α) (cursor : Option String), truthyOpt cursor = false →
      ∀ pre : List (FetchOutcome α), (∀ p ∈ pre, OkTruthy p) →
      ∀ rest : List (FetchOutcome α),
        paginate 0 (pre ++ .ok items cursor :: rest) [] = allItems pre ++ items) ∧
    (∀ cursor : Option String, truthyOpt cursor = true →
      ∀ (rest : List (FetchOutcome α)) (cap : Nat) (acc : List α),
        cap = 0 ∨ acc.length < cap →
        paginate cap (.ok [] cursor :: rest) acc = paginate cap rest acc) := by
  refine ⟨fun items cursor hc pre rest cap acc =>
    paginate_stops_at_falsy items cursor hc pre rest cap acc, ?_, ?_⟩
  · intro items cursor hc pre hpre rest
    rw [paginate_stops_at_falsy items cursor hc pre rest 0 [],
      paginate_zero_good (goodPages_of_allOk pre hpre items cursor hc) [],
      List.nil_append, allItems_append]
    simp [allItems]
  · intro cursor hc rest cap acc hcond
    rw [paginate_cons_ok, if_pos hcond, if_pos hc, List.append_nil]

/-- Witness for C2: a no-cursor page makes the result independent of a
later page, and an empty page with a cursor continues to the next page. -/
theorem paginate_cursor_end_of_stream_witness :
    (paginate 0 ([] ++ FetchOutcome.ok [5] none :: [FetchOutcome.err]) ([] : List Nat) =
      paginate 0 ([] ++ [FetchOutcome.ok [5] none]) []) ∧
    (paginate 7 (FetchOutcome.ok [] (some "c") :: [FetchOutcome.ok [4] none])
        ([] : List Nat) =
      paginate 7 [FetchOutcome.ok [4] none] []) :=
  ⟨paginate_cursor_end_of_stream.1 [5] none (by decide) [] [.err] 0 [],
   paginate_cursor_end_of_stream.2.2 (some "c") (by decide)
     [FetchOutcome.ok [4] none] 7 [] (Or.inr (by decide))⟩

/-! ## Claim C3 -/

/-- C3: a failed page fetch terminates the loop early: the result is the
same as if the stream had ended there, pages past the failure are never
consulted, and over a successful truthy-cursor run the caller receives
exactly the items collected before the failure, as an ordinary list (the
embedding returns a plain `List`, never an `Except.error`: the `except`
clause in the source swallows the exception). -/
theorem pagination_error_partial {α : Type} :
    (∀ (pre rest : List (FetchOutcome α)) (cap : Nat) (acc : List α),
      paginate cap (pre ++ .err :: rest) acc = paginate cap pre acc) ∧
    (∀ (pre rest : List (FetchOutcome α)) (cap : Nat),
      get_all_followers cap (pre ++ .err :: rest) = get_all_followers cap pre ∧
      get_all_follows cap (pre ++ .err :: rest) = get_all_follows cap pre) ∧
    (∀ pre : List (FetchOutcome α), (∀ p ∈ pre, OkTruthy p) →
      ∀ rest : List (FetchOutcome α),
        get_all_followers 0 (pre ++ .err :: rest) = allItems pre) := by
  refine ⟨fun pre rest cap acc => paginate_stops_at_err pre rest cap acc, ?_, ?_⟩
  · intro pre rest cap
    have h := paginate_stops_at_err pre rest cap ([] : List α)
    constructor
    · show (if cap > 0 then (paginate cap (pre ++ .err :: rest) []).take cap
        else paginate cap (pre ++ .err :: rest) []) =
        (if cap > 0 then (paginate cap pre []).take cap else paginate cap pre [])
      rw [h]
    · show (if cap > 0 then (paginate cap (pre ++ .err :: rest) []).take cap
        else paginate cap (pre ++ .err :: rest) []) =
        (if cap > 0 then (paginate cap pre []).take cap else paginate cap pre [])
      rw [h]
  · intro pre hpre rest
    show (if (0 : Nat) > 0 then (paginate 0 (pre ++ .err :: rest) []).take 0
      else paginate 0 (pre ++ .err :: rest) []) = _
    rw [if_neg (Nat.lt_irrefl 0), paginate_stops_at_err pre rest 0 [],
      paginate_zero_allOk pre hpre [], List.nil_append]

/-- Witness for C3: one good page, then a failure, then junk: the call
returns exactly the first page's items. -/
theorem pagination_error_partial_witness :
    get_all_followers 0
        ([FetchOutcome.ok [7] (some "c")] ++ FetchOutcome.err :: [FetchOutcome.err]) =
      allItems [FetchOutcome.ok ([7] : List Nat) (some "c")] :=
  pagination_error_partial.2.2 [FetchOutcome.ok [7] (some "c")]
    (fun p hp => by
      rw [List.mem_singleton] at hp
      subst hp
      exact (by decide : truthyOpt (some "c") = true))
    [.err]

/-! ## Text-extraction lemmas -/

/-- Newline-terminated concatenation: the shape the `+= text + "\n"` loop
builds. -/
def joinNlTerm : List String → String
  | [] => ""
  | t :: ts => t ++ "\n" ++ joinNlTerm ts

theorem combinedText_eq (posts : List FeedItem) :
    combinedText posts =
      joinNlTerm ((posts.map itemText).filter fun t => decide (t ≠ "")) := by
  suffices h : ∀ acc : String,
      List.foldl
        (fun acc item =>
          let text := itemText item
          if text = "" then acc else acc ++ text ++ "\n") acc posts =
      acc ++ joinNlTerm ((posts.map itemText).filter fun t => decide (t ≠ "")) by
    have := h ""
    rwa [String.empty_append] at this
  induction posts with
  | nil =>
    intro acc
    simp [joinNlTerm]
  | cons item posts ih =>
    intro acc
    rw [List.foldl_cons]
    change List.foldl _
      (if itemText item = "" then acc else acc ++ itemText item ++ "\n") posts = _
    rw [List.map_cons, List.filter_cons]
    by_cases h : itemText item = ""
    · have hp : decide (itemText item ≠ "") = false := by simp [h]
      rw [if_pos h, hp, ih acc]
      simp
    · have hp : decide (itemText item ≠ "") = true := by simp [h]
      rw [if_neg h, hp, ih (acc ++ itemText item ++ "\n")]
      simp only [if_true, joinNlTerm]
      apply String.ext
      simp [String.data_append]

theorem joinNlTerm_eq_sepByNl_append (t : String) (ts : List String) :
    joinNlTerm (t :: ts) = sepByNl (t :: ts) ++ "\n" := by
  induction ts generalizing t with
  | nil =>
    show t ++ "\n" ++ "" = t ++ "\n"
    rw [String.append_empty]
  | cons u ts ih =>
    show t ++ "\n" ++ joinNlTerm (u :: ts) = sepByNl (t :: u :: ts) ++ "\n"
    rw [ih u]
    apply String.ext
    simp [sepByNl, String.data_append]

theorem stripCharsAux_append_ws (l : List Char) (c : Char)
    (hc : c.isWhitespace = true) :
    (((l ++ [c]).dropWhile Char.isWhitespace).reverse.dropWhile
        Char.isWhitespace).reverse =
      ((l.dropWhile Char.isWhitespace).reverse.dropWhile
        Char.isWhitespace).reverse := by
  rw [List.dropWhile_append]
  by_cases he : (l.dropWhile Char.isWhitespace).isEmpty
  · rw [if_pos he, List.isEmpty_iff] at *
    rw [he]
    simp [List.dropWhile_cons_of_pos, hc]
  · rw [if_neg he, List.reverse_append]
    simp [List.dropWhile_cons_of_pos, hc]

theorem pyStrip_append_newline (s : String) : pyStrip (s ++ "\n") = pyStrip s := by
  show String.mk _ = String.mk _
  rw [String.data_append]
  exact congrArg String.mk (stripCharsAux_append_ws s.data '\n' (by decide))

/-! ## Claim C8 (corrected: the code trims leading whitespace too) -/

/-- Counterexample to C8 as stated: on a feed whose single text is
`" hi"`, the code returns `"hi"` — Python `str.strip()` removes the
leading space — while "concatenate and trim trailing whitespace"
(`extractPostTextSpec`, the spec's words) yields `" hi"`. -/
theorem getPostContent_strips_leading_too :
    get_post_content (mkFeed [" hi"]) = .ok "hi" ∧
    extractPostTextSpec (mkFeed [" hi"]) = " hi" ∧
    (" hi" : String) ≠ "hi" :=
  ⟨by decide, by decide, by decide⟩

/-- C8 amended: `get_post_content` concatenates the non-empty
`post.record.text` values separated by newline and trims surrounding
(leading and trailing) whitespace; on texts `["hello", "", "world"]` it
returns `"hello\nworld"`, and it fails with the `"No post texts found."`
error exactly when that trimmed concatenation is empty (the raw
concatenation is empty or whitespace-only), as on a feed of all-empty
texts. -/
theorem getPostContent_characterization :
    get_post_content (mkFeed ["hello", "", "world"]) = .ok "hello\nworld" ∧
    get_post_content (mkFeed ["", "", ""]) = .error "No post texts found." ∧
    ∀ pd : PostsData,
      get_post_content pd =
        if extractPostTextStripped pd = "" then .error "No post texts found."
        else .ok (extractPostTextStripped pd) := by
  refine ⟨by decide, by decide, ?_⟩
  intro pd
  have key : pyStrip (combinedText (pd.feed.getD [])) = extractPostTextStripped pd := by
    rw [combinedText_eq]
    unfold extractPostTextStripped nonEmptyTexts
    rcases hts : ((pd.feed.getD []).map itemText).filter (fun t => decide (t ≠ ""))
      with _ | ⟨t, ts⟩
    · rfl
    · rw [joinNlTerm_eq_sepByNl_append, pyStrip_append_newline]
  show (if pyStrip (combinedText (pd.feed.getD [])) = ""
    then Except.error "No post texts found."
    else Except.ok (pyStrip (combinedText (pd.feed.getD [])))) = _
  rw [key]

/-! ## Claim C5 (corrected: only once a session is established) -/

/-- Dispatcher state with no session and no credential environment
variables. -/
def envNoCreds : ServerEnv :=
  { bsky_did := none, envHandle := none, envPassword := none,
    authOutcome := .error "nope", profileOutcome := .error "nope",
    feedOutcome := .error "nope", searchPostsOutcome := .error "nope",
    searchActorsOutcome := .error "nope", vibeOutcome := .error "nope" }

/-- An empty `arguments` object. -/
def emptyArgs : ToolArgs := ⟨none, none, none, none⟩

set_option maxRecDepth 4000 in
/-- Counterexample to C5 as stated: with no session and no credentials, a
`tools/call` for the unknown tool `"bogus_tool"` returns the
environment-variable error envelope, whose message does not contain the
tool name. -/
theorem unknownTool_counterexample :
    (handle_call_tool envNoCreds "bogus_tool" emptyArgs).1.text =
      "Error: BSKY_HANDLE and BSKY_PASSWORD environment variables not set." ∧
    (handle_call_tool envNoCreds "bogus_tool" emptyArgs).1.isError = true ∧
    ¬ ("bogus_tool".data <:+:
        (handle_call_tool envNoCreds "bogus_tool" emptyArgs).1.text.data) :=
  ⟨by decide, by decide, by decide⟩

/-- C5 amended: once a session is established (`api.bsky_did` truthy), a
`tools/call` whose name is none of the four known tools returns the
`isError` envelope `"Tool not found: <name>"`, whose message contains the
tool name, and issues no network request. -/
theorem unknownTool_error_envelope (env : ServerEnv) (name : String)
    (args : ToolArgs) (hdid : truthyOpt env.bsky_did = true)
    (hname : name ∉ knownToolNames) :
    handle_call_tool env name args =
      ({ text := "Tool not found: " ++ name, isError := true }, []) ∧
    name.data <:+: ("Tool not found: " ++ name).data := by
  simp only [knownToolNames, List.mem_cons, List.mem_singleton, not_or] at hname
  obtain ⟨h1, h2, h3, h4⟩ := hname
  refine ⟨?_, ⟨"Tool not found: ".data, [], by simp⟩⟩
  simp [handle_call_tool, hdid, dispatchTool, h1, h2, h3, h4]

/-- Witness for C5's amended theorem: an authenticated session and the
unknown name `"nope_tool"`. -/
theorem unknownTool_error_envelope_witness :
    handle_call_tool
        { bsky_did := some "did:plc:abc", envHandle := none, envPassword := none,
          authOutcome := .ok (), profileOutcome := .ok "{}",
          feedOutcome := .ok (mkFeed []), searchPostsOutcome := .ok "[]",
          searchActorsOutcome := .ok "[]", vibeOutcome := .ok "ok" }
        "nope_tool" emptyArgs =
      ({ text := "Tool not found: " ++ "nope_tool", isError := true }, []) ∧
    "nope_tool".data <:+: ("Tool not found: " ++ "nope_tool").data :=
  unknownTool_error_envelope _ "nope_tool" emptyArgs (by decide) (by decide)

/-! ## Claim C6 (code bug: the "no content" branch is unreachable) -/

/-- Dispatcher state for C6: an established session whose feed fetch
returns one post with empty text. -/
def envVibeEmpty : ServerEnv :=
  { bsky_did := some "did:plc:abc", envHandle := some "me.bsky.social",
    envPassword := some "hunter2", authOutcome := .ok (),
    profileOutcome := .ok "{}", feedOutcome := .ok (mkFeed [""]),
    searchPostsOutcome := .ok "[]", searchActorsOutcome := .ok "[]",
    vibeOutcome := .ok "friendly vibes" }

/-- The arguments of the C6 failing invocation. -/
def vibeArgs : ToolArgs := ⟨some "alice", none, none, none⟩

/-- C6 evaluated at the failing input: a vibe-check over a feed of
all-empty texts returns the generic catch-all envelope
`"Error executing dream_bsky_vibe_check: No post texts found."` with
`isError` set — because `get_post_content` raises instead of returning an
empty string, the distinct `"No text found for alice to analyze."` return
(server.py lines 141-142) is never taken. -/
theorem vibeCheck_empty_feed_hits_catch_all :
    handle_call_tool envVibeEmpty "dream_bsky_vibe_check" vibeArgs =
      ({ text := "Error executing dream_bsky_vibe_check: No post texts found.",
         isError := true }, [.getFeed]) ∧
    (handle_call_tool envVibeEmpty "dream_bsky_vibe_check" vibeArgs).1 ≠
      { text := "No text found for alice to analyze.", isError := false } :=
  ⟨by decide, by decide⟩

/-! ## Claim C10 -/

/-- C10: whenever `authenticate_bsky` returns normally, the returned value
is `True` and the session is fully established: a non-empty token, headers
whose `Authorization` is `"Bearer "` followed by that token (and the JSON
content type), and `bsky_did` set from the response's `did` field; every
other outcome is a raised exception (the `.error` branch). -/
theorem authenticate_establishes_session
    (identifier password conf_id conf_pass : Option String)
    (httpResp : Except String AuthResponse) (b : Bool) (s : Session)
    (h : authenticate_bsky identifier password conf_id conf_pass httpResp =
      .ok (b, s)) :
    b = true ∧
    ∃ token : String, token ≠ "" ∧ s.bsky_auth_token = some token ∧
      s.bsky_headers = some
        { Authorization := "Bearer " ++ token,
          ContentType := "application/json" } ∧
      ∃ ad : AuthResponse, httpResp = .ok ad ∧ s.bsky_did = ad.did := by
  cases httpResp with
  | error e =>
    simp only [authenticate_bsky] at h
    split at h
    · simp at h
    · simp at h
  | ok ad =>
    obtain ⟨jwt, did⟩ := ad
    cases jwt with
    | none =>
      simp only [authenticate_bsky] at h
      split at h
      · simp at h
      · simp at h
    | some token =>
      simp only [authenticate_bsky] at h
      split at h
      · simp at h
      · split at h
        · simp at h
        · next htok =>
          simp only [Except.ok.injEq, Prod.mk.injEq] at h
          obtain ⟨hb, hs⟩ := h
          subst hb
          subst hs
          exact ⟨rfl, token, htok, rfl, rfl, ⟨some token, did⟩, rfl, rfl⟩

/-- The session state produced by the witness call for C10. -/
def sessionW : Session :=
  { bsky_auth_token := some "tok",
    bsky_headers := some
      { Authorization := "Bearer tok",
        ContentType := "application/json" },
    bsky_did := some "did:plc:me" }

/-- Witness for C10: a concrete successful login exchange. -/
theorem authenticate_establishes_session_witness :
    (true = true) ∧
    ∃ token : String, token ≠ "" ∧ sessionW.bsky_auth_token = some token ∧
      sessionW.bsky_headers = some
        { Authorization := "Bearer " ++ token,
          ContentType := "application/json" } ∧
      ∃ ad : AuthResponse,
        (Except.ok ⟨some "tok", some "did:plc:me"⟩ : Except String AuthResponse) =
          .ok ad ∧
        sessionW.bsky_did = ad.did :=
  authenticate_establishes_session (some "id") (some "pw") none none
    (.ok ⟨some "tok", some "did:plc:me"⟩) true sessionW (by decide)

end BlueskyCli
